import Mathlib

/-!
Verification of the conversational assistant's confirmation / duplicate-resolution
core: the pending-confirmation store (ConfirmationService), the deterministic
entity matcher, the duplicate-classifier fallback, the confirmation grammar and
resolution paths of SalesService and FinanceService, and the AI retry loop of
BaseAIService.  All definitions are shallow embeddings of the TypeScript source;
external collaborators (the Redis key-value cache, JSON serialisation, the AI
provider, date formatting) are modelled by explicit state / parameters.
-/

namespace Assist

/-! ## String utilities (JS semantics) -/

/-- JS `String.prototype.toLowerCase` restricted to per-character lowering. -/
def lowerStr (s : String) : String := ⟨s.data.map Char.toLower⟩

/-- JS truthiness for an optional string field: `undefined` and `""` are falsy. -/
def jsTruthyStr : Option String → Bool
  | none => false
  | some s => !(s == "")

/-- JS `hay.includes(pat)` (case-sensitive substring test). -/
def includesSub (hay pat : String) : Bool := decide (pat.data <:+: hay.data)

/-- Case-insensitive substring test: `hay.toLowerCase().includes(pat.toLowerCase())`. -/
def includesCI (hay pat : String) : Bool := includesSub (lowerStr hay) (lowerStr pat)

/-! ## Confirmation grammar (SalesService.isConfirmationMessage,
FinanceService.isConfirmationMessage and the dispatch regexes of
handleConfirmation) -/

/-- JS regex `\s` class (on the whitespace actually occurring in messages). -/
def jsWs (c : Char) : Bool := c.isWhitespace

/-- JS `String.prototype.trim` — strip leading and trailing whitespace. -/
def jsTrim (s : String) : String :=
  ⟨((s.data.dropWhile jsWs).reverse.dropWhile jsWs).reverse⟩

/-- All characters are ASCII digits (`\d`). -/
def allDigits (l : List Char) : Bool := l.all Char.isDigit

/-- `/^\d+$/`: a non-empty string of digits. -/
def digitRunPat (s : String) : Bool := !s.data.isEmpty && allDigits s.data

/-- Drop `p` as a literal prefix of `l`, or fail. -/
def dropPrefixCh : List Char → List Char → Option (List Char)
  | [], l => some l
  | _ :: _, [] => none
  | p :: ps, c :: cs => if p = c then dropPrefixCh ps cs else none

/-- Tail of `/^(show|details|info)\s*(\d+)?$/` after the keyword: optional
whitespace then an optional digit run. -/
def showTailOk (rest : List Char) : Bool := allDigits (rest.dropWhile jsWs)

/-- `/^(show|details|info)\s*(\d+)?$/` on an already-lowercased string
(the `\d*` variant of the finance service accepts the same language). -/
def showPatFull (l : String) : Bool :=
  match dropPrefixCh "show".data l.data with
  | some rest => showTailOk rest
  | none =>
    match dropPrefixCh "details".data l.data with
    | some rest => showTailOk rest
    | none =>
      match dropPrefixCh "info".data l.data with
      | some rest => showTailOk rest
      | none => false

/-- `/^(show|details|info)/` — the unanchored dispatch test in handleConfirmation. -/
def showPrefixPat (l : String) : Bool :=
  (dropPrefixCh "show".data l.data).isSome ||
  (dropPrefixCh "details".data l.data).isSome ||
  (dropPrefixCh "info".data l.data).isSome

/-- `/^update\s+\d+$/` on an already-lowercased string. -/
def updateNumPat (l : String) : Bool :=
  match dropPrefixCh "update".data l.data with
  | some rest =>
    !(rest.takeWhile jsWs).isEmpty && !(rest.dropWhile jsWs).isEmpty &&
      allDigits (rest.dropWhile jsWs)
  | none => false

/-- `SalesService.isConfirmationMessage`: the four `/i` patterns tested against
`message.trim()`; note there is NO length gate in the sales service. -/
def salesIsConfirmationMessage (message : String) : Bool :=
  let t := lowerStr (jsTrim message)
  (["yes", "y", "confirm", "create new", "new lead"].contains t) ||
  (["no", "n", "cancel", "abort"].contains t) ||
  ((["update", "use existing"].contains t) || digitRunPat t) ||
  showPatFull t

/-- `FinanceService.isConfirmationMessage`: five `/i` patterns tested against
`message.trim()`, AND-ed with the `trimmedMessage.length < 20` gate. -/
def financeIsConfirmationMessage (message : String) : Bool :=
  let t := jsTrim message
  let l := lowerStr t
  ((["yes", "y", "confirm", "add new", "new transaction"].contains l) ||
   (["no", "n", "cancel", "abort"].contains l) ||
   (["update", "use existing"].contains l) ||
   updateNumPat l ||
   showPatFull l) && decide (t.length < 20)

/-- First maximal digit run of a string (`s.match(/\d+/)`). -/
def firstDigitRun : List Char → Option (List Char)
  | [] => none
  | c :: cs => if c.isDigit then some (c :: cs.takeWhile Char.isDigit) else firstDigitRun cs

/-- `parseInt` on a digit run. -/
def digitsToNat (l : List Char) : Nat := l.foldl (fun acc c => acc * 10 + (c.toNat - 48)) 0

/-- `message.match(/\d+/)` followed by `parseInt(match[0])`. -/
def firstNumber (s : String) : Option Nat := (firstDigitRun s.data).map digitsToNat

/-- `const targetIndex = match ? parseInt(match[0]) - 1 : 0` — the 0-based
candidate index a confirmation reply resolves to (may be negative). -/
def confTargetIndex (l : String) : Int :=
  match firstNumber l with
  | some n => (n : Int) - 1
  | none => 0

/-! ## Data model -/

/-- Classifier verdict (`'DUPLICATE' | 'UNIQUE'`). -/
inductive Verdict where
  | DUPLICATE
  | UNIQUE
deriving DecidableEq

/-- `DuplicateDetection` — verdict, confidence, rationale and matched label. -/
structure DuplicateDetection where
  result : Verdict
  confidence : ℚ
  reasoning : String
  matchedLead : Option String := none
  matchedTransaction : Option String := none
deriving DecidableEq

/-- A durable `Lead` record (dates as opaque values / epoch milliseconds). -/
structure Lead where
  id : Nat
  name : String
  phone : Option String := none
  contacted : Bool := false
  replied : Bool := false
  interested : Bool := false
  status : String := "New"
  nextStep : Option String := none
  nextFollowup : Option String := none
  notes : Option String := none
  createdAt : Nat := 0
  updatedAt : Nat := 0
deriving DecidableEq

/-- `LeadUpdate['updates']` — the partial field set parsed from the message. -/
structure LeadUpdates where
  phone : Option String := none
  contacted : Option Bool := none
  replied : Option Bool := none
  interested : Option Bool := none
  status : Option String := none
  nextStep : Option String := none
  nextFollowup : Option String := none
  notes : Option String := none
deriving DecidableEq

/-- `{ name, ...updates }` as stored in a pending confirmation (`proposedLead`). -/
structure ProposedLead where
  name : String
  phone : Option String := none
  contacted : Option Bool := none
  replied : Option Bool := none
  interested : Option Bool := none
  status : Option String := none
  nextStep : Option String := none
  nextFollowup : Option String := none
  notes : Option String := none
deriving DecidableEq

def ProposedLead.ofUpdates (name : String) (u : LeadUpdates) : ProposedLead :=
  { name := name, phone := u.phone, contacted := u.contacted, replied := u.replied,
    interested := u.interested, status := u.status, nextStep := u.nextStep,
    nextFollowup := u.nextFollowup, notes := u.notes }

/-- A durable `Transaction` record. -/
structure Transaction where
  id : Nat
  description : String
  amount : Int
  category : String
  babylonPrinciple : Option String := none
  date : Option String := none
  createdAt : Nat := 0
deriving DecidableEq

/-- `FinanceUpdate['transaction']` — the partial transaction parsed from the message. -/
structure TxInput where
  id : Option Nat := none
  description : Option String := none
  amount : Option Int := none
  category : Option String := none
  babylonPrinciple : Option String := none
  date : Option String := none
deriving DecidableEq

/-- `proposedTransaction` as stored in a pending confirmation. -/
structure ProposedTx where
  description : String
  amount : Int
  category : String
  babylonPrinciple : Option String := none
  date : Option String := none
deriving DecidableEq

/-- `PendingConfirmation` — the in-flight duplicate-disambiguation state. -/
structure PendingConfirmation where
  type : String
  proposedLead : Option ProposedLead := none
  proposedTransaction : Option ProposedTx := none
  duplicateCheck : DuplicateDetection
  similarLeads : Option (List Lead) := none
  similarTransactions : Option (List Transaction) := none
  timestamp : Nat := 0
deriving DecidableEq

/-! ## Key-value cache (Redis collaborator) and ConfirmationService

The cache is modelled as an association list of key / entry pairs where an
entry carries its raw payload and absolute expiry time (`setEx key ttl data`
at time `now` expires at `now + ttl·1000` with `now` in epoch milliseconds).
A stored payload is either a well-formed serialised `PendingConfirmation`
(`good`) or an unparsable blob (`corrupt`) — the model of `JSON.parse`
succeeding or throwing. -/

inductive RawData where
  | good (c : PendingConfirmation)
  | corrupt (raw : String)
deriving DecidableEq

structure CacheEntry where
  data : RawData
  expiresAt : Nat
deriving DecidableEq

abbrev KV := List (String × CacheEntry)

/-- `redis.setEx key ttl data` — last write wins for the key. -/
def kvSet (kv : KV) (key : String) (e : CacheEntry) : KV :=
  (key, e) :: kv.filter (fun p => !(p.1 == key))

/-- `redis.get key` at time `now` — expired entries read as absent. -/
def kvLookup (kv : KV) (key : String) (now : Nat) : Option RawData :=
  match kv.find? (fun p => p.1 == key) with
  | some (_, e) => if now < e.expiresAt then some e.data else none
  | none => none

/-- `redis.del key`. -/
def kvDel (kv : KV) (key : String) : KV :=
  kv.filter (fun p => !(p.1 == key))

/-- `ConfirmationService.getKey`. -/
def confKey (userId domain : String) : String :=
  "confirmation:" ++ userId ++ ":" ++ domain

/-- `ConfirmationService.storePendingConfirmation`: serialise
`{...confirmation, timestamp: Date.now()}` under the (user, domain) key with a
300-second expiry. -/
def storePendingConfirmation (kv : KV) (userId domain : String)
    (c : PendingConfirmation) (now : Nat) : KV :=
  kvSet kv (confKey userId domain) ⟨.good { c with timestamp := now }, now + 300 * 1000⟩

/-- `ConfirmationService.getPendingConfirmation`: returns the parsed value, or
none; deletes the key and returns none when the stored payload is unparsable. -/
def getPendingConfirmation (kv : KV) (userId domain : String) (now : Nat) :
    Option PendingConfirmation × KV :=
  match kvLookup kv (confKey userId domain) now with
  | none => (none, kv)
  | some (.good c) => (some c, kv)
  | some (.corrupt _) => (none, kvDel kv (confKey userId domain))

/-- `ConfirmationService.clearPendingConfirmation`. -/
def clearPendingConfirmation (kv : KV) (userId domain : String) : KV :=
  kvDel kv (confKey userId domain)

/-- `ConfirmationService.hasPendingConfirmation`. -/
def hasPendingConfirmation (kv : KV) (userId domain : String) (now : Nat) : Bool :=
  (kvLookup kv (confKey userId domain) now).isSome

/-! ## BaseAIService retry loop (`processAIRequest`, `isRetryableError`) -/

def maxRetries : Nat := 2
def retryDelay : Nat := 1000

/-- `BaseAIService.isRetryableError`: message-substring test on the lowered
error message. -/
def isRetryableError (msg : String) : Bool :=
  let m := lowerStr msg
  includesSub m "503" || includesSub m "502" || includesSub m "429" ||
  includesSub m "overloaded" || includesSub m "timeout" ||
  includesSub m "network" || includesSub m "unavailable"

/-- Result of one `processAIRequest` run: final outcome, number of attempts
made, and the sleeps (in ms) taken between attempts. -/
structure AIRun (α : Type) where
  result : Except String α
  attemptsMade : Nat
  sleeps : List Nat

/-- The `for (attempt = 1; attempt <= maxRetries; attempt++)` loop: each
attempt either succeeds (JSON parse + schema validation included in the
attempt's outcome) or fails with an error message; a failed attempt is
retried after `retryDelay * attempt` ms only when the error is retryable and
attempts remain, otherwise the error is thrown immediately. -/
def aiLoop (outcomes : Nat → Except String α) (attempt : Nat) (sleeps : List Nat) :
    AIRun α :=
  match outcomes attempt with
  | .ok v => ⟨.ok v, attempt, sleeps⟩
  | .error e =>
    if h : isRetryableError e = true ∧ attempt < maxRetries then
      aiLoop outcomes (attempt + 1) (sleeps ++ [retryDelay * attempt])
    else ⟨.error e, attempt, sleeps⟩
termination_by maxRetries + 1 - attempt
decreasing_by omega

/-- `BaseAIService.processAIRequest`, abstracting one provider call (plus JSON
parse and schema validation) per attempt as `outcomes attempt`. -/
def processAIRequest (outcomes : Nat → Except String α) : AIRun α :=
  aiLoop outcomes 1 []

/-! ## SalesService -/

/-- `\w` (ASCII word character). -/
def isWordChar (c : Char) : Bool := c.isAlphanum || c == '_'

/-- `.replace(/\s+/g, ' ')` — collapse each whitespace run to one space
(the flag records whether we are inside a run already emitted as a space). -/
def collapseWsAux : Bool → List Char → List Char
  | _, [] => []
  | inWs, c :: cs =>
    if jsWs c then
      if inWs then collapseWsAux true cs else ' ' :: collapseWsAux true cs
    else c :: collapseWsAux false cs

def collapseWs (l : List Char) : List Char := collapseWsAux false l

/-- `.replace(/[^\w\s]/g, '')`. -/
def stripNonWord (l : List Char) : List Char :=
  l.filter (fun c => isWordChar c || jsWs c)

/-- `SalesService.cleanLeadName`: trim, collapse whitespace, strip
non-word characters, lowercase. -/
def cleanLeadName (name : String) : String :=
  lowerStr ⟨stripNonWord (collapseWs (jsTrim name).data)⟩

/-- Strategy (a): case-insensitive exact name match. -/
def leadExactNameMatch (clean : String) (l : Lead) : Bool :=
  lowerStr l.name == lowerStr clean

/-- Strategy (b): exact phone match. -/
def leadPhoneMatch (phone : String) (l : Lead) : Bool := l.phone == some phone

/-- Strategy (c): case-insensitive substring match. -/
def leadSubstringMatch (clean : String) (l : Lead) : Bool := includesCI l.name clean

/-- `SalesService.findExistingLead` — the deterministic Entity Matcher: try the
three strategies in order, returning the first hit (`findFirst` = first in
list order), the phone strategy only when a phone was proposed. -/
def findExistingLead (db : List Lead) (name : String) (phone : Option String) :
    Option Lead :=
  let clean := cleanLeadName name
  match db.find? (leadExactNameMatch clean) with
  | some l => some l
  | none =>
    match (if jsTruthyStr phone then db.find? (leadPhoneMatch (phone.getD "")) else none) with
    | some l => some l
    | none => db.find? (leadSubstringMatch clean)

/-- The fallback verdict returned when the sales Duplicate Classifier throws. -/
def fallbackDetectionSales : DuplicateDetection :=
  { result := .UNIQUE, confidence := 1/2,
    reasoning := "AI detection failed, assuming unique to be safe",
    matchedLead := none }

/-- The verdict returned without any AI call when there are no leads to compare. -/
def noLeadsDetection : DuplicateDetection :=
  { result := .UNIQUE, confidence := 1,
    reasoning := "No existing leads to compare against", matchedLead := none }

/-- `SalesService.checkForDuplicate`: `ai` is the outcome the classifier call
would have (success or thrown error); the Bool records whether the AI was
actually invoked. -/
def salesCheckForDuplicate (existingLeads : List Lead)
    (ai : Except String DuplicateDetection) : DuplicateDetection × Bool :=
  if existingLeads.isEmpty then (noLeadsDetection, false)
  else
    match ai with
    | .ok d => (d, true)
    | .error _ => (fallbackDetectionSales, true)

/-- `Math.round` on a rational. -/
def jsRound (q : ℚ) : Int := Int.floor (q + 1/2)

/-- JS template interpolation of a nullable string (null prints "null"). -/
def jsNullableStr (o : Option String) : String := o.getD "null"

/-- Notes merge on the create-path implicit merge (`createLead`, exact-match
branch): when a new note is present it is appended unconditionally —
`exactMatch.notes ? existing + "\n\n" + new : new` — with no duplicate check
and no timestamp. -/
def createPathMergeNotes (existing newNote : Option String) : Option String :=
  if jsTruthyStr newNote then
    if jsTruthyStr existing then some (existing.getD "" ++ "\n\n" ++ newNote.getD "")
    else newNote
  else existing

/-- The smart note merge used by `updateLead` and by
`executePendingAction`/update_existing: skip the append when the new note is
already a case-insensitive substring of the existing notes, otherwise append
it as a timestamped block. -/
def smartMergeNotes (existing newNote : Option String) (ts : String) : Option String :=
  if jsTruthyStr newNote then
    if jsTruthyStr existing then
      if includesCI (existing.getD "") (newNote.getD "") then existing
      else some (existing.getD "" ++ "\n\n[" ++ ts ++ "] " ++ newNote.getD "")
    else newNote
  else existing

/-- `o && { field: o }` spread for a string-valued field with default. -/
def pickStr (o : Option String) (d : String) : String :=
  if jsTruthyStr o then o.getD "" else d

/-- `o && { field: o }` spread for an optional string field. -/
def pickOptStr (o existing : Option String) : Option String :=
  if jsTruthyStr o then o else existing

/-- The `prisma.lead.update` data of `createLead`'s exact-match branch. -/
def applyCreateMerge (exact : Lead) (u : LeadUpdates) : Lead :=
  { exact with
    phone := pickOptStr u.phone exact.phone
    contacted := u.contacted.getD exact.contacted
    replied := u.replied.getD exact.replied
    interested := u.interested.getD exact.interested
    status := pickStr u.status exact.status
    nextStep := pickOptStr u.nextStep exact.nextStep
    nextFollowup := pickOptStr u.nextFollowup exact.nextFollowup
    notes := createPathMergeNotes exact.notes u.notes }

/-- The `prisma.lead.update` data of `executePendingAction`/update_existing. -/
def applySmartMergeProposed (existing : Lead) (p : ProposedLead) (ts : String) : Lead :=
  { existing with
    phone := pickOptStr p.phone existing.phone
    contacted := p.contacted.getD existing.contacted
    replied := p.replied.getD existing.replied
    interested := p.interested.getD existing.interested
    status := pickStr p.status existing.status
    nextStep := pickOptStr p.nextStep existing.nextStep
    nextFollowup := pickOptStr p.nextFollowup existing.nextFollowup
    notes := smartMergeNotes existing.notes p.notes ts }

/-- The `prisma.lead.update` data of `updateLead` (same smart note merge). -/
def applyUpdateLeadMerge (lead : Lead) (u : LeadUpdates) (ts : String) : Lead :=
  { lead with
    phone := pickOptStr u.phone lead.phone
    contacted := u.contacted.getD lead.contacted
    replied := u.replied.getD lead.replied
    interested := u.interested.getD lead.interested
    status := pickStr u.status lead.status
    nextStep := pickOptStr u.nextStep lead.nextStep
    nextFollowup := pickOptStr u.nextFollowup lead.nextFollowup
    notes := smartMergeNotes lead.notes u.notes ts }

/-- `SalesService.findSimilarLeadsByName` (`contains`, insensitive, take 3). -/
def findSimilarLeadsByName (db : List Lead) (name : String) : List Lead :=
  (db.filter (fun l => includesCI l.name name)).take 3

/-- `SalesService.formatDuplicateConfirmation`. -/
def formatDuplicateConfirmation (dup : DuplicateDetection) (p : ProposedLead) : String :=
  "🤔 **Potential Duplicate Detected!**\n\n" ++
  "I found a similar lead: **" ++ jsNullableStr dup.matchedLead ++ "**\n" ++
  "📊 Confidence: " ++ toString (jsRound (dup.confidence * 100)) ++ "%\n" ++
  "💭 Reasoning: " ++ dup.reasoning ++ "\n\n" ++
  "**What you wanted to add:**\n" ++
  "✨ **" ++ p.name ++ "**\n" ++
  (if jsTruthyStr p.phone then "📞 " ++ p.phone.getD "" ++ "\n" else "") ++
  (if jsTruthyStr p.status then "📊 " ++ p.status.getD "" ++ "\n" else "") ++
  "\n**What would you like to do?**\n" ++
  "• Reply **\"yes\"** - Create as new lead anyway\n" ++
  "• Reply **\"update\"** - Update the existing lead instead\n" ++
  "• Reply **\"show\"** - Show me more details about the existing lead\n" ++
  "• Reply **\"cancel\"** - Cancel this action"

inductive SalesCreateOutcome where
  | updatedExisting (lead : Lead)
  | duplicateConfirmation (pending : PendingConfirmation) (message : String)
  | created (lead : Lead) (dup : DuplicateDetection)
deriving DecidableEq

structure SalesCreateResult where
  outcome : SalesCreateOutcome
  classifierInvoked : Bool
  db : List Lead
  kv : KV
deriving DecidableEq

/-- `SalesService.createLead`: Entity Matcher first (a hit updates in place and
never reaches the classifier); otherwise classifier (`ai` its would-be
outcome) over the 15 most recent leads; a `DUPLICATE` verdict with a matched
label stores a pending confirmation; otherwise the lead is created. -/
def salesCreateLead (kv : KV) (userId : String) (db : List Lead) (name : String)
    (u : LeadUpdates) (ai : Except String DuplicateDetection) (now newId : Nat) :
    SalesCreateResult :=
  match findExistingLead db name u.phone with
  | some exact =>
    let updated := applyCreateMerge exact u
    { outcome := .updatedExisting updated
      classifierInvoked := false
      db := db.map (fun l => if l.id == exact.id then updated else l)
      kv := kv }
  | none =>
    let checked := salesCheckForDuplicate (db.take 15) ai
    let dup := checked.1
    if dup.result == .DUPLICATE && jsTruthyStr dup.matchedLead then
      let sims := findSimilarLeadsByName db (dup.matchedLead.getD "")
      let proposed := ProposedLead.ofUpdates name u
      let pending : PendingConfirmation :=
        { type := "duplicate_detected", proposedLead := some proposed,
          duplicateCheck := dup, similarLeads := some sims, timestamp := now }
      { outcome := .duplicateConfirmation { pending with timestamp := now }
          (formatDuplicateConfirmation dup proposed)
        classifierInvoked := checked.2
        db := db
        kv := storePendingConfirmation kv userId "sales" pending now }
    else
      let lead : Lead :=
        { id := newId, name := cleanLeadName name,
          phone := if jsTruthyStr u.phone then u.phone else none,
          contacted := u.contacted.getD false,
          replied := u.replied.getD false,
          interested := u.interested.getD false,
          status := pickStr u.status "New",
          nextStep := if jsTruthyStr u.nextStep then u.nextStep else none,
          nextFollowup := if jsTruthyStr u.nextFollowup then u.nextFollowup else none,
          notes := if jsTruthyStr u.notes then u.notes else none,
          createdAt := now, updatedAt := now }
      { outcome := .created lead dup, classifierInvoked := checked.2,
        db := db ++ [lead], kv := kv }

/-- `SalesService.updateLead`: smart-merge into the matched lead, falling back
to `createLead` when the Entity Matcher finds nothing. -/
def salesUpdateLead (kv : KV) (userId : String) (db : List Lead) (name : String)
    (u : LeadUpdates) (ai : Except String DuplicateDetection) (now newId : Nat)
    (ts : String) : SalesCreateResult ⊕ (Lead × List Lead) :=
  match findExistingLead db name u.phone with
  | none => .inl (salesCreateLead kv userId db name u ai now newId)
  | some lead =>
    let updated := applyUpdateLeadMerge lead u ts
    .inr (updated, db.map (fun l => if l.id == lead.id then updated else l))

/-- JS `array[i]` for a possibly negative / out-of-range index. -/
def jsIndex (l : List α) (i : Int) : Option α :=
  if h : 0 ≤ i ∧ i.toNat < l.length then some (l.get ⟨i.toNat, h.2⟩) else none

inductive SalesExecAction where
  | create_new
  | update_existing
deriving DecidableEq

structure HandleResult where
  response : String
  kv : KV
  db : List Lead
deriving DecidableEq

/-- `SalesService.executePendingAction`.  `writeOk` models whether the
datastore write inside the `try` succeeds; on a throw the `catch` clears the
pending confirmation and returns the generic failure string.  Note the
`create_new` branch body is an elided stub in the source, so control falls
through to the "Unknown action" return. -/
def salesExecutePendingAction (kv : KV) (userId : String) (action : SalesExecAction)
    (pending : PendingConfirmation) (targetIndex : Int) (db : List Lead)
    (ts : String) (writeOk : Bool) : HandleResult :=
  match pending.proposedLead with
  | none => ⟨"❌ Invalid confirmation data. Please try again.", kv, db⟩
  | some proposed =>
    match action with
    | .create_new => ⟨"❌ Unknown action. Please try again.", kv, db⟩
    | .update_existing =>
      match pending.similarLeads with
      | none => ⟨"❌ No similar leads found to update.", kv, db⟩
      | some sims =>
        if sims.isEmpty then ⟨"❌ No similar leads found to update.", kv, db⟩
        else
          match jsIndex sims targetIndex with
          | none => ⟨"❌ Could not find the lead to update. Please try again.", kv, db⟩
          | some target =>
            match db.find? (fun l => l.id == target.id) with
            | none => ⟨"❌ Lead no longer exists. Please try again.", kv, db⟩
            | some existingLead =>
              if writeOk then
                let updated := applySmartMergeProposed existingLead proposed ts
                ⟨"✅ **Updated existing lead for " ++ updated.name ++
                    "**\n\n💡 *Combined with previous lead as you requested*",
                  clearPendingConfirmation kv userId "sales",
                  db.map (fun l => if l.id == existingLead.id then updated else l)⟩
              else
                ⟨"❌ Something went wrong. Please try adding the lead again.",
                  clearPendingConfirmation kv userId "sales", db⟩

/-- `SalesService.getStatusEmoji`. -/
def getStatusEmoji (status : String) : String :=
  if status == "New" then "✨"
  else if status == "Contacted" then "📞"
  else if status == "Replied" then "💬"
  else if status == "Interested" then "🎯"
  else if status == "Waiting" then "⏳"
  else if status == "Proposal Sent" then "📄"
  else if status == "Closed - Won" then "🎉"
  else if status == "Closed - Lost" then "❌"
  else "📋"

/-- `SalesService.formatViewResponse`; the date-fns renderings
(`formatDistanceToNow`, `getFollowupText`) are injected as parameters. -/
def formatViewResponse (renderAgo : Nat → String) (renderFollowup : String → String)
    (lead : Lead) : String :=
  let flags : List String :=
    (if lead.contacted then ["📞 Contacted"] else []) ++
    (if lead.replied then ["💬 Replied"] else []) ++
    (if lead.interested then ["🎯 Interested"] else [])
  "👤 **" ++ lead.name ++ "** " ++ getStatusEmoji lead.status ++ "\n\n" ++
  "📊 **Status:** " ++ lead.status ++ "\n" ++
  (if jsTruthyStr lead.phone then "📞 **Phone:** " ++ lead.phone.getD "" ++ "\n" else "") ++
  (if !flags.isEmpty then "📈 **Activity:** " ++ String.intercalate ", " flags ++ "\n" else "") ++
  (if jsTruthyStr lead.nextFollowup then
    "📅 **Next Follow-up:** " ++ renderFollowup (lead.nextFollowup.getD "") ++ "\n" else "") ++
  (if jsTruthyStr lead.nextStep then "🎯 **Next Step:** " ++ lead.nextStep.getD "" ++ "\n" else "") ++
  (if jsTruthyStr lead.notes then "📝 **Notes:** " ++ lead.notes.getD "" ++ "\n" else "") ++
  "\n⏰ **Timeline:**\n" ++
  "• Created: " ++ renderAgo lead.createdAt ++ "\n" ++
  "• Last updated: " ++ renderAgo lead.updatedAt

/-- `SalesService.showLeadDetails` — returns only a string; the pending
confirmation and the datastore are untouched. -/
def salesShowLeadDetails (renderAgo : Nat → String) (renderFollowup : String → String)
    (pending : PendingConfirmation) (targetIndex : Int) (db : List Lead) : String :=
  match pending.similarLeads with
  | none => "❌ No similar leads found."
  | some sims =>
    if sims.isEmpty then "❌ No similar leads found."
    else
      match jsIndex sims targetIndex with
      | none => "❌ Could not find lead details."
      | some target =>
        match db.find? (fun l => l.id == target.id) with
        | none => "❌ Could not find lead details."
        | some fullLead =>
          formatViewResponse renderAgo renderFollowup fullLead ++
            "\n\n💭 *Reply with \x27update\x27 to merge with this lead, or \x27yes\x27 to create separately*"

/-- `SalesService.handleConfirmation`: read the pending confirmation and
dispatch the (trimmed, lowered) reply through the anchored yes / update
patterns, the unanchored show prefix, and the cancel fallback. -/
def salesHandleConfirmation (renderAgo : Nat → String) (renderFollowup : String → String)
    (kv : KV) (userId message : String) (db : List Lead) (now : Nat) (ts : String)
    (writeOk : Bool) : HandleResult :=
  let got := getPendingConfirmation kv userId "sales" now
  match got.1 with
  | none =>
    ⟨"I don\x27t have any pending confirmations. What would you like to do?", got.2, db⟩
  | some pending =>
    let l := lowerStr (jsTrim message)
    if ["yes", "y", "confirm", "create new", "new lead"].contains l then
      salesExecutePendingAction got.2 userId .create_new pending 0 db ts writeOk
    else if (["update", "use existing"].contains l) || digitRunPat l then
      salesExecutePendingAction got.2 userId .update_existing pending (confTargetIndex l) db ts writeOk
    else if showPrefixPat l then
      ⟨salesShowLeadDetails renderAgo renderFollowup pending (confTargetIndex l) db, got.2, db⟩
    else
      ⟨"👍 Cancelled. What else can I help you with?",
        clearPendingConfirmation got.2 userId "sales", db⟩

/-! ## Concrete specimens used by witnesses and counterexamples -/

def specimenDetection : DuplicateDetection :=
  { result := .UNIQUE, confidence := 1, reasoning := "r" }

def specimenPendingA : PendingConfirmation :=
  { type := "duplicate_detected", duplicateCheck := specimenDetection }

def specimenPendingB : PendingConfirmation :=
  { type := "transaction_duplicate", duplicateCheck := specimenDetection }

def specimenLead : Lead := { id := 1, name := "Dandrom Guest House" }

def specimenTx : Transaction :=
  { id := 1, description := "Groceries", amount := 89, category := "Variable Expenses" }

def specimenProposedLead : ProposedLead := { name := "dans guest house" }

def specimenProposedTx : ProposedTx :=
  { description := "Woolworths", amount := 89, category := "Variable Expenses" }

def pendingSalesNoCand : PendingConfirmation :=
  { type := "duplicate_detected", proposedLead := some specimenProposedLead,
    duplicateCheck := specimenDetection, similarLeads := some [] }

def pendingSalesWithCand : PendingConfirmation :=
  { type := "duplicate_detected", proposedLead := some specimenProposedLead,
    duplicateCheck := specimenDetection, similarLeads := some [specimenLead] }

def pendingFinNoCand : PendingConfirmation :=
  { type := "transaction_duplicate", proposedTransaction := some specimenProposedTx,
    duplicateCheck := specimenDetection, similarTransactions := some [] }

def pendingFinWithCand : PendingConfirmation :=
  { type := "transaction_duplicate", proposedTransaction := some specimenProposedTx,
    duplicateCheck := specimenDetection, similarTransactions := some [specimenTx] }

/-! ## FinanceService -/

/-- The fallback verdict when the finance Duplicate Classifier throws. -/
def fallbackDetectionFinance : DuplicateDetection :=
  { result := .UNIQUE, confidence := 1/2,
    reasoning := "AI detection failed, assuming unique to be safe",
    matchedLead := none, matchedTransaction := none }

/-- No transaction supplied — no AI call. -/
def noTxToCheckDetection : DuplicateDetection :=
  { result := .UNIQUE, confidence := 1, reasoning := "No transaction to check",
    matchedLead := none, matchedTransaction := none }

/-- No recent transactions to compare against — no AI call. -/
def noRecentTxDetection : DuplicateDetection :=
  { result := .UNIQUE, confidence := 1,
    reasoning := "No recent transactions to compare against",
    matchedLead := none, matchedTransaction := none }

/-- The 14-day / 20-row shortlist used by the finance duplicate check. -/
def recentWindow (db : List Transaction) (now : Nat) : List Transaction :=
  (db.filter (fun t => now - 14 * 86400000 ≤ t.createdAt)).take 20

/-- `FinanceService.checkForTransactionDuplicate`. -/
def financeCheckForTransactionDuplicate (tx : Option TxInput)
    (recent : List Transaction) (ai : Except String DuplicateDetection) :
    DuplicateDetection × Bool :=
  match tx with
  | none => (noTxToCheckDetection, false)
  | some _ =>
    if recent.isEmpty then (noRecentTxDetection, false)
    else
      match ai with
      | .ok d => (d, true)
      | .error _ => (fallbackDetectionFinance, true)

/-- `FinanceService.findSimilarTransactions` (`contains`, insensitive, take 3). -/
def findSimilarTransactions (db : List Transaction) (description : String) :
    List Transaction :=
  (db.filter (fun t => includesCI t.description description)).take 3

/-- JS template interpolation of a possibly-undefined string. -/
def jsUndefStr (o : Option String) : String := o.getD "undefined"

/-- JS template interpolation of a possibly-undefined number. -/
def jsUndefInt (o : Option Int) : String :=
  match o with
  | some n => toString n
  | none => "undefined"

/-- `FinanceService.formatTransactionDuplicateConfirmation`. -/
def formatTransactionDuplicateConfirmation (dup : DuplicateDetection)
    (t : TxInput) : String :=
  "🤔 **Potential Duplicate Transaction!**\n\n" ++
  "I found a similar transaction: **" ++ jsNullableStr dup.matchedTransaction ++ "**\n" ++
  "📊 Confidence: " ++ toString (jsRound (dup.confidence * 100)) ++ "%\n" ++
  "💭 Reasoning: " ++ dup.reasoning ++ "\n\n" ++
  "**What you wanted to add:**\n" ++
  "💰 **" ++ jsUndefStr t.description ++ "** R" ++ jsUndefInt t.amount ++ "\n" ++
  "📁 Category: " ++ jsUndefStr t.category ++ "\n" ++
  "\n**What would you like to do?**\n" ++
  "• Reply **\"yes\"** - Add as new transaction anyway\n" ++
  "• Reply **\"update\"** - Update the existing transaction instead\n" ++
  "• Reply **\"show\"** - Show me more details about the existing transaction\n" ++
  "• Reply **\"cancel\"** - Cancel this action"

inductive FinanceAddOutcome where
  | duplicateConfirmation (pending : PendingConfirmation) (message : String)
  | added (tx : Transaction) (dup : DuplicateDetection)
  | invalidData
deriving DecidableEq

structure FinanceAddResult where
  outcome : FinanceAddOutcome
  classifierInvoked : Bool
  db : List Transaction
  kv : KV
deriving DecidableEq

/-- `FinanceService.addTransaction`: validate, classify against the recent
window (`ai` the classifier call's would-be outcome), store a pending
confirmation on a DUPLICATE verdict with a matched label, otherwise create. -/
def financeAddTransaction (kv : KV) (userId : String) (db : List Transaction)
    (td : Option TxInput) (ai : Except String DuplicateDetection) (now newId : Nat) :
    FinanceAddResult :=
  match td with
  | none => ⟨.invalidData, false, db, kv⟩
  | some t =>
    if !jsTruthyStr t.description || t.amount == none then ⟨.invalidData, false, db, kv⟩
    else
      let checked := financeCheckForTransactionDuplicate (some t) (recentWindow db now) ai
      let dup := checked.1
      if dup.result == .DUPLICATE && jsTruthyStr dup.matchedTransaction then
        let sims := findSimilarTransactions db (dup.matchedTransaction.getD "")
        let proposed : ProposedTx :=
          { description := t.description.getD "", amount := t.amount.getD 0,
            category := t.category.getD "", babylonPrinciple := t.babylonPrinciple,
            date := t.date }
        let pending : PendingConfirmation :=
          { type := "transaction_duplicate", proposedTransaction := some proposed,
            duplicateCheck := dup, similarTransactions := some sims, timestamp := now }
        ⟨.duplicateConfirmation { pending with timestamp := now }
            (formatTransactionDuplicateConfirmation dup t),
          checked.2, db, storePendingConfirmation kv userId "finance" pending now⟩
      else
        let tx : Transaction :=
          { id := newId, description := t.description.getD "", amount := t.amount.getD 0,
            category := t.category.getD "",
            babylonPrinciple := if jsTruthyStr t.babylonPrinciple then t.babylonPrinciple else none,
            date := if jsTruthyStr t.date then t.date else none,
            createdAt := now }
        ⟨.added tx dup, checked.2, db ++ [tx], kv⟩

inductive FinanceExecAction where
  | add_new
  | update_existing
deriving DecidableEq

structure FinHandleResult where
  response : String
  kv : KV
  db : List Transaction
deriving DecidableEq

/-- JS `a || b` on strings ("" is falsy). -/
def strOr (a b : String) : String := if a == "" then b else a

/-- `FinanceService.executePendingAction`.  `writeOk` models whether the
datastore write inside the `try` succeeds; `prisma.transaction.update` on a
vanished row also throws, so both are routed to the `catch`, which clears the
pending confirmation and returns the generic failure string. -/
def financeExecutePendingAction (kv : KV) (userId : String)
    (action : FinanceExecAction) (pending : PendingConfirmation) (targetIndex : Int)
    (db : List Transaction) (now newId : Nat) (writeOk : Bool) : FinHandleResult :=
  match pending.proposedTransaction with
  | none => ⟨"❌ Invalid confirmation data. Please try again.", kv, db⟩
  | some proposed =>
    match action with
    | .add_new =>
      if writeOk then
        let tx : Transaction :=
          { id := newId, description := proposed.description, amount := proposed.amount,
            category := proposed.category,
            babylonPrinciple := if jsTruthyStr proposed.babylonPrinciple then proposed.babylonPrinciple else none,
            date := if jsTruthyStr proposed.date then proposed.date else none,
            createdAt := now }
        ⟨"✅ **Added new transaction: " ++ tx.description ++ "** R" ++ toString tx.amount ++
            "\n\n💡 *You chose to add as separate from similar transaction*",
          clearPendingConfirmation kv userId "finance", db ++ [tx]⟩
      else
        ⟨"❌ Something went wrong. Please try adding the transaction again.",
          clearPendingConfirmation kv userId "finance", db⟩
    | .update_existing =>
      match pending.similarTransactions with
      | none => ⟨"❌ No similar transactions found to update.", kv, db⟩
      | some sims =>
        if sims.isEmpty then ⟨"❌ No similar transactions found to update.", kv, db⟩
        else
          match jsIndex sims targetIndex with
          | none => ⟨"❌ Could not find the transaction to update. Please try again.", kv, db⟩
          | some target =>
            if writeOk && (db.find? (fun t => t.id == target.id)).isSome then
              let row := (db.find? (fun t => t.id == target.id)).getD target
              let updated : Transaction :=
                { row with
                  description := strOr proposed.description target.description
                  amount := proposed.amount
                  category := strOr proposed.category target.category
                  babylonPrinciple :=
                    if jsTruthyStr proposed.babylonPrinciple then proposed.babylonPrinciple
                    else target.babylonPrinciple
                  date := if jsTruthyStr proposed.date then proposed.date else target.date }
              ⟨"✅ **Updated existing transaction: " ++ updated.description ++ "** R" ++
                  toString updated.amount ++ "\n\n💡 *Merged with previous transaction as requested*",
                clearPendingConfirmation kv userId "finance",
                db.map (fun t => if t.id == row.id then updated else t)⟩
            else
              ⟨"❌ Something went wrong. Please try adding the transaction again.",
                clearPendingConfirmation kv userId "finance", db⟩

/-- `FinanceService.showTransactionDetails` — returns only a string built from
the stored candidate; the pending confirmation and the datastore are
untouched (`renderDate` injects `toLocaleDateString`). -/
def financeShowTransactionDetails (renderDate : Nat → String)
    (pending : PendingConfirmation) (targetIndex : Int) : String :=
  match pending.similarTransactions with
  | none => "❌ No similar transactions found."
  | some sims =>
    if sims.isEmpty then "❌ No similar transactions found."
    else
      match jsIndex sims targetIndex with
      | none => "❌ Could not find transaction details."
      | some t =>
        "💰 **Transaction Details:**\n" ++
        "• Description: " ++ t.description ++ "\n" ++
        "• Amount: R" ++ toString t.amount ++ "\n" ++
        "• Category: " ++ t.category ++ "\n" ++
        "• Date: " ++ renderDate t.createdAt ++ "\n" ++
        (if jsTruthyStr t.babylonPrinciple then
          "• Babylon Principle: " ++ t.babylonPrinciple.getD "" ++ "\n" else "") ++
        "\n💭 *Reply with \x27update\x27 to merge with this transaction, or \x27yes\x27 to add separately*"

/-- `FinanceService.handleConfirmation`: read the pending confirmation and
dispatch the (trimmed, lowered) reply; without a pending confirmation, and on
any unmatched reply, fall through to normal message processing (its response
abstracted as `normalResponse`). -/
def financeHandleConfirmation (renderDate : Nat → String) (kv : KV)
    (userId message : String) (db : List Transaction) (now newId : Nat)
    (writeOk : Bool) (normalResponse : String) : FinHandleResult :=
  let got := getPendingConfirmation kv userId "finance" now
  match got.1 with
  | none => ⟨normalResponse, got.2, db⟩
  | some pending =>
    let l := lowerStr (jsTrim message)
    if ["yes", "y", "confirm", "add new", "new transaction"].contains l then
      financeExecutePendingAction got.2 userId .add_new pending 0 db now newId writeOk
    else if (["update", "use existing"].contains l) || updateNumPat l then
      financeExecutePendingAction got.2 userId .update_existing pending (confTargetIndex l) db now newId writeOk
    else if showPrefixPat l then
      ⟨financeShowTransactionDetails renderDate pending (confTargetIndex l), got.2, db⟩
    else if ["no", "n", "cancel", "abort"].contains l then
      ⟨"👍 Cancelled. What else can I help you with?",
        clearPendingConfirmation got.2 userId "finance", db⟩
    else
      ⟨normalResponse, got.2, db⟩

theorem lowerStr_append (a b : String) : lowerStr (a ++ b) = lowerStr a ++ lowerStr b := by
  simp [lowerStr, String.data_append]
  rfl

theorem includesSub_refl (s : String) : includesSub s s = true := by
  simp [includesSub]

theorem includesCI_refl (s : String) : includesCI s s = true := by
  simp [includesCI, includesSub]

/-- A string contains (case-insensitively) any suffix of itself, in particular a
note text just appended at the very end. -/
theorem includesCI_append_right (a b : String) : includesCI (a ++ b) b = true := by
  simp only [includesCI, includesSub, lowerStr_append, decide_eq_true_eq]
  exact List.IsSuffix.isInfix (List.suffix_append (lowerStr a).data (lowerStr b).data)

theorem append_ne_empty_right (X n : String) (hn : n ≠ "") : X ++ n ≠ "" := by
  intro h
  apply hn
  cases n with
  | mk nd =>
    cases X with
    | mk xd =>
      have hd : xd ++ nd = [] := congrArg String.data h
      have hnil : nd = [] := (List.append_eq_nil.mp hd).2
      simp [hnil]

/-- The note-append rule of `updateLead` / `executePendingAction` is
idempotent: merging the same non-empty note a second time changes nothing. -/
theorem smartMergeNotes_idem (e : Option String) (n ts₁ ts₂ : String) (hn : n ≠ "") :
    smartMergeNotes (smartMergeNotes e (some n) ts₁) (some n) ts₂
      = smartMergeNotes e (some n) ts₁ := by
  have htr : jsTruthyStr (some n) = true := by simp [jsTruthyStr, hn]
  cases he : jsTruthyStr e with
  | false =>
    simp only [smartMergeNotes, htr, if_true, he, if_false]
    simp [htr, includesCI_refl, jsTruthyStr]
  | true =>
    by_cases hinc : includesCI (e.getD "") n = true
    · simp [smartMergeNotes, htr, he, hinc]
    · simp only [smartMergeNotes, htr, if_true, he, hinc]
      have hne : (e.getD "" ++ "\n\n[" ++ ts₁ ++ "] ") ++ n ≠ "" :=
        append_ne_empty_right _ n hn
      have htr₂ : jsTruthyStr (some (e.getD "" ++ "\n\n[" ++ ts₁ ++ "] " ++ n)) = true := by
        simp only [jsTruthyStr, Bool.not_eq_true', beq_eq_false_iff_ne, ne_eq]
        exact hne
      have hinc₂ : includesCI (e.getD "" ++ "\n\n[" ++ ts₁ ++ "] " ++ n) n = true :=
        includesCI_append_right (e.getD "" ++ "\n\n[" ++ ts₁ ++ "] ") n
      simp [htr₂, hinc₂, hinc]

theorem kvFind_set_self (kv : KV) (key : String) (e : CacheEntry) :
    (kvSet kv key e).find? (fun p => p.1 == key) = some (key, e) := by
  simp [kvSet]

theorem kvLookup_kvSet_self (kv : KV) (key : String) (e : CacheEntry) (now : Nat) :
    kvLookup (kvSet kv key e) key now = if now < e.expiresAt then some e.data else none := by
  simp [kvLookup, kvFind_set_self]

theorem find?_filter_ne (kv : KV) (key : String) :
    (kv.filter (fun p => !(p.1 == key))).find? (fun p => p.1 == key) = none := by
  rw [List.find?_eq_none]
  intro x hx
  have hmem := (List.mem_filter.mp hx).2
  simp only [Bool.not_eq_true', beq_eq_false_iff_ne, ne_eq] at hmem
  simp only [beq_iff_eq]
  exact hmem

theorem kvLookup_kvDel (kv : KV) (key : String) (now : Nat) :
    kvLookup (kvDel kv key) key now = none := by
  simp only [kvLookup, kvDel, find?_filter_ne]

/-- After a `storePendingConfirmation`, a `get` within the TTL returns the
stored confirmation (with its timestamp stamped at store time), and after the
TTL it returns nothing. -/
theorem getPendingConfirmation_store (kv : KV) (u d : String)
    (c : PendingConfirmation) (t now : Nat) :
    getPendingConfirmation (storePendingConfirmation kv u d c t) u d now =
      if now < t + 300 * 1000
      then (some { c with timestamp := t }, storePendingConfirmation kv u d c t)
      else (none, storePendingConfirmation kv u d c t) := by
  simp only [getPendingConfirmation, storePendingConfirmation, kvLookup_kvSet_self]
  by_cases h : now < t + 300 * 1000
  · simp [h]
  · simp [h]

/-! ## Claim theorems -/

/-- C1 counterexample: the claim is false as stated — the create-path implicit
merge (`createLead`, exact-match branch) appends the same note text a second
time, yielding two blocks, while the confirmation-path merge is idempotent. -/
theorem C1_counterexample :
    createPathMergeNotes (createPathMergeNotes none (some "hello")) (some "hello")
        = some "hello\n\nhello" ∧
    smartMergeNotes (smartMergeNotes none (some "hello") "05/02/2025, 09:00")
        (some "hello") "05/02/2025, 09:05" = some "hello" := by
  constructor
  · decide
  · decide

/-- C1 (amended): the idempotent note-append rule — skip when the new note is
already a case-insensitive substring of the existing notes, else append a
timestamped block — holds for the `updateLead` merge and the confirmation-path
`executePendingAction`/update_existing merge (both compute notes via
`smartMergeNotes`, and merging the same non-empty note twice yields exactly
one appended block); the create-path implicit merge instead appends the note
unconditionally and untimestamped, so it duplicates a repeated note. -/
theorem C1_note_merge (e : Option String) (n ts₁ ts₂ : String) (hn : n ≠ "") :
    smartMergeNotes (smartMergeNotes e (some n) ts₁) (some n) ts₂
        = smartMergeNotes e (some n) ts₁ ∧
    (∀ (L : Lead) (p : ProposedLead) (ts : String),
        (applySmartMergeProposed L p ts).notes = smartMergeNotes L.notes p.notes ts) ∧
    (∀ (L : Lead) (u : LeadUpdates) (ts : String),
        (applyUpdateLeadMerge L u ts).notes = smartMergeNotes L.notes u.notes ts) ∧
    createPathMergeNotes (some n) (some n) = some (n ++ "\n\n" ++ n) := by
  refine ⟨smartMergeNotes_idem e n ts₁ ts₂ hn, fun _ _ _ => rfl, fun _ _ _ => rfl, ?_⟩
  simp [createPathMergeNotes, jsTruthyStr, hn]

theorem C1_note_merge_witness :
    smartMergeNotes (smartMergeNotes (some "call back") (some "wants demo") "t1")
        (some "wants demo") "t2"
      = smartMergeNotes (some "call back") (some "wants demo") "t1" ∧
    createPathMergeNotes (some "wants demo") (some "wants demo")
      = some ("wants demo" ++ "\n\n" ++ "wants demo") :=
  ⟨(C1_note_merge (some "call back") "wants demo" "t1" "t2" (by decide)).1,
   (C1_note_merge (some "call back") "wants demo" "t1" "t2" (by decide)).2.2.2⟩

/-- C5 counterexample: the claim is false as stated — the sales service has no
length gate, so a 30-character message matching the confirmation pattern
`/^(update|use existing|\d+)$/i` IS treated as a confirmation reply. -/
theorem C5_counterexample :
    salesIsConfirmationMessage "123456789012345678901234567890" = true ∧
    (jsTrim "123456789012345678901234567890").length = 30 := by
  constructor
  · decide
  · decide

/-- C5 (amended): the length gate exists only in the finance service, whose
`isConfirmationMessage` requires trimmed length < 20 (so no message of
trimmed length ≥ 20 is ever a confirmation reply there) while accepting short
replies matching `/^(yes|y)$/i`; the sales service applies no length gate, so
a pattern-matching 30-character message is treated as a confirmation there. -/
theorem C5_length_gate :
    (∀ message : String, 20 ≤ (jsTrim message).length →
        financeIsConfirmationMessage message = false) ∧
    financeIsConfirmationMessage "yes" = true ∧
    financeIsConfirmationMessage " y " = true ∧
    salesIsConfirmationMessage "yes" = true ∧
    salesIsConfirmationMessage "123456789012345678901234567890" = true := by
  refine ⟨?_, by decide, by decide, by decide, by decide⟩
  intro m hm
  have hlt : ¬ ((jsTrim m).length < 20) := by omega
  simp [financeIsConfirmationMessage, hlt]

theorem C5_length_gate_witness :
    financeIsConfirmationMessage "yes yes yes yes yes yes" = false :=
  C5_length_gate.1 "yes yes yes yes yes yes" (by decide)

/-- C2: on every create action the deterministic Entity Matcher runs first —
an exact case-insensitive name match takes priority, any hit makes
`createLead` update the matched record in place, and the Duplicate Classifier
is never invoked (no AI call) and nothing is stored in the cache. -/
theorem C2_exact_match_short_circuit (kv : KV) (userId : String) (db : List Lead)
    (name : String) (u : LeadUpdates) (ai : Except String DuplicateDetection)
    (now newId : Nat) (L : Lead)
    (hhit : findExistingLead db name u.phone = some L) :
    (salesCreateLead kv userId db name u ai now newId).classifierInvoked = false ∧
    (salesCreateLead kv userId db name u ai now newId).outcome
        = .updatedExisting (applyCreateMerge L u) ∧
    (salesCreateLead kv userId db name u ai now newId).kv = kv ∧
    (∀ (db' : List Lead) (name' : String) (phone' : Option String) (M : Lead),
      db'.find? (leadExactNameMatch (cleanLeadName name')) = some M →
      findExistingLead db' name' phone' = some M) := by
  refine ⟨?_, ?_, ?_, ?_⟩
  · simp only [salesCreateLead, hhit]
  · simp only [salesCreateLead, hhit]
  · simp only [salesCreateLead, hhit]
  · intro db' name' phone' M hM
    simp only [findExistingLead, hM]

theorem C2_witness :
    (salesCreateLead [] "u1" [{ id := 1, name := "John Smith", phone := some "0821234567" }]
        "john smith" {} (.error "classifier offline") 5 7).classifierInvoked = false ∧
    (salesCreateLead [] "u1" [{ id := 1, name := "John Smith", phone := some "0821234567" }]
        "john smith" {} (.error "classifier offline") 5 7).outcome
      = .updatedExisting (applyCreateMerge
          { id := 1, name := "John Smith", phone := some "0821234567" } {}) ∧
    (salesCreateLead [] "u1" [{ id := 1, name := "John Smith", phone := some "0821234567" }]
        "john smith" {} (.error "classifier offline") 5 7).kv = [] := by
  have h := C2_exact_match_short_circuit [] "u1"
    [{ id := 1, name := "John Smith", phone := some "0821234567" }]
    "john smith" {} (.error "classifier offline") 5 7
    { id := 1, name := "John Smith", phone := some "0821234567" } (by decide)
  exact ⟨h.1, h.2.1, h.2.2.1⟩

/-- C3: `storePendingConfirmation` writes under the single (user, domain) key
with a 300-second expiry, overwriting any existing entry: after a second
store, a `get` returns the second payload while unexpired (never the first,
when the payloads differ) and nothing after; after the TTL elapses a `get`
returns absent even though the entry was never cleared. -/
theorem C3_store_overwrite_ttl (kv : KV) (u d : String)
    (c₁ c₂ : PendingConfirmation) (t₁ t₂ now : Nat) :
    (getPendingConfirmation
        (storePendingConfirmation (storePendingConfirmation kv u d c₁ t₁) u d c₂ t₂)
        u d now).1
      = (if now < t₂ + 300 * 1000 then some { c₂ with timestamp := t₂ } else none) ∧
    (({ c₁ with timestamp := t₁ } : PendingConfirmation) ≠ { c₂ with timestamp := t₂ } →
      (getPendingConfirmation
          (storePendingConfirmation (storePendingConfirmation kv u d c₁ t₁) u d c₂ t₂)
          u d now).1 ≠ some { c₁ with timestamp := t₁ }) ∧
    (t₁ + 300 * 1000 ≤ now →
      (getPendingConfirmation (storePendingConfirmation kv u d c₁ t₁) u d now).1 = none) := by
  have h1 : (getPendingConfirmation
      (storePendingConfirmation (storePendingConfirmation kv u d c₁ t₁) u d c₂ t₂)
      u d now).1
      = (if now < t₂ + 300 * 1000 then some { c₂ with timestamp := t₂ } else none) := by
    rw [getPendingConfirmation_store]
    by_cases h : now < t₂ + 300 * 1000 <;> simp [h]
  refine ⟨h1, ?_, ?_⟩
  · intro hne
    rw [h1]
    by_cases h : now < t₂ + 300 * 1000
    · simp only [h, if_true]
      intro hcontra
      exact hne (by injection hcontra with hx; rw [hx])
    · simp [h]
  · intro hle
    rw [getPendingConfirmation_store]
    have h : ¬ (now < t₁ + 300 * 1000) := by omega
    simp [h]

theorem C3_witness :
    (getPendingConfirmation
        (storePendingConfirmation (storePendingConfirmation [] "u" "sales" specimenPendingA 0)
          "u" "sales" specimenPendingB 1000)
        "u" "sales" 2000).1 ≠ some { specimenPendingA with timestamp := 0 } ∧
    (getPendingConfirmation (storePendingConfirmation [] "u" "sales" specimenPendingA 0)
        "u" "sales" 300000).1 = none := by
  constructor
  · exact (C3_store_overwrite_ttl [] "u" "sales" specimenPendingA specimenPendingB
      0 1000 2000).2.1 (by decide)
  · exact (C3_store_overwrite_ttl [] "u" "sales" specimenPendingA specimenPendingB
      0 1000 300000).2.2 (by decide)

/-- C4: when the Duplicate Classifier call throws, both domain services
proceed with the fallback verdict — UNIQUE at confidence 0.5 with a rationale
noting the fallback — and still create the proposed record (sales lead /
finance transaction); classifier unavailability never blocks creation. -/
theorem C4_classifier_fallback
    (kv : KV) (userId : String) (db : List Lead) (name : String) (u : LeadUpdates)
    (e : String) (now newId : Nat)
    (hmiss : findExistingLead db name u.phone = none)
    (hne : db.take 15 ≠ [])
    (kv₂ : KV) (u₂ : String) (tdb : List Transaction) (t : TxInput) (e₂ : String)
    (now₂ newId₂ : Nat)
    (hdesc : jsTruthyStr t.description = true)
    (hamt : t.amount ≠ none)
    (hrec : recentWindow tdb now₂ ≠ []) :
    ((salesCreateLead kv userId db name u (.error e) now newId).classifierInvoked = true ∧
      ∃ lead, (salesCreateLead kv userId db name u (.error e) now newId).outcome
            = .created lead fallbackDetectionSales ∧
        (salesCreateLead kv userId db name u (.error e) now newId).db = db ++ [lead]) ∧
    ((financeAddTransaction kv₂ u₂ tdb (some t) (.error e₂) now₂ newId₂).classifierInvoked = true ∧
      ∃ tx, (financeAddTransaction kv₂ u₂ tdb (some t) (.error e₂) now₂ newId₂).outcome
            = .added tx fallbackDetectionFinance ∧
        (financeAddTransaction kv₂ u₂ tdb (some t) (.error e₂) now₂ newId₂).db = tdb ++ [tx]) := by
  have hne' : (db.take 15).isEmpty = false := by
    simpa [List.isEmpty_iff] using hne
  have hrec' : (recentWindow tdb now₂).isEmpty = false := by
    simpa [List.isEmpty_iff] using hrec
  have hcheckS : salesCheckForDuplicate (db.take 15) (.error e) = (fallbackDetectionSales, true) := by
    simp [salesCheckForDuplicate, hne']
  have hcheckF : financeCheckForTransactionDuplicate (some t) (recentWindow tdb now₂) (.error e₂)
      = (fallbackDetectionFinance, true) := by
    simp [financeCheckForTransactionDuplicate, hrec']
  have hamt' : (t.amount == none) = false := by
    cases h : t.amount with
    | none => exact absurd h hamt
    | some a => rfl
  have hdupS : (fallbackDetectionSales.result == Verdict.DUPLICATE
      && jsTruthyStr fallbackDetectionSales.matchedLead) = false := by decide
  have hdupF : (fallbackDetectionFinance.result == Verdict.DUPLICATE
      && jsTruthyStr fallbackDetectionFinance.matchedTransaction) = false := by decide
  constructor
  · refine ⟨?_, ?_⟩
    · simp [salesCreateLead, hmiss, hcheckS, hdupS]
    · simp only [salesCreateLead, hmiss, hcheckS, hdupS, Bool.false_eq_true, if_false]
      exact ⟨_, rfl, rfl⟩
  · refine ⟨?_, ?_⟩
    · simp [financeAddTransaction, hdesc, hamt', hcheckF, hdupF]
    · simp only [financeAddTransaction, hdesc, hamt', Bool.not_true, Bool.false_or,
        hcheckF, hdupF, Bool.false_eq_true, if_false]
      exact ⟨_, rfl, rfl⟩

theorem C4_witness :
    ((salesCreateLead [] "u1" [{ id := 1, name := "alice" }] "bob" {}
        (.error "503 overloaded") 3 9).classifierInvoked = true ∧
      ∃ lead, (salesCreateLead [] "u1" [{ id := 1, name := "alice" }] "bob" {}
            (.error "503 overloaded") 3 9).outcome = .created lead fallbackDetectionSales ∧
        (salesCreateLead [] "u1" [{ id := 1, name := "alice" }] "bob" {}
            (.error "503 overloaded") 3 9).db = [{ id := 1, name := "alice" }] ++ [lead]) ∧
    ((financeAddTransaction [] "u2"
        [{ id := 1, description := "Groceries", amount := 89, category := "Variable Expenses" }]
        (some { description := some "Lunch", amount := some 50, category := some "Food" })
        (.error "timeout") 0 4).classifierInvoked = true ∧
      ∃ tx, (financeAddTransaction [] "u2"
            [{ id := 1, description := "Groceries", amount := 89, category := "Variable Expenses" }]
            (some { description := some "Lunch", amount := some 50, category := some "Food" })
            (.error "timeout") 0 4).outcome = .added tx fallbackDetectionFinance ∧
        (financeAddTransaction [] "u2"
            [{ id := 1, description := "Groceries", amount := 89, category := "Variable Expenses" }]
            (some { description := some "Lunch", amount := some 50, category := some "Food" })
            (.error "timeout") 0 4).db
          = [{ id := 1, description := "Groceries", amount := 89, category := "Variable Expenses" }] ++ [tx]) :=
  C4_classifier_fallback [] "u1" [{ id := 1, name := "alice" }] "bob" {} "503 overloaded" 3 9
    (by decide) (by decide)
    [] "u2" [{ id := 1, description := "Groceries", amount := 89, category := "Variable Expenses" }]
    { description := some "Lunch", amount := some 50, category := some "Food" } "timeout" 0 4
    (by decide) (by decide) (by decide)

/-- C6 counterexample: the claim is false as stated — resolving
update_existing against a pending confirmation whose candidate list is empty
returns the error message but leaves the pending confirmation STORED (not
cleared): a subsequent `get` still returns it. -/
theorem C6_counterexample :
    (salesHandleConfirmation (fun _ => "") (fun _ => "")
        (storePendingConfirmation [] "u" "sales" pendingSalesNoCand 0)
        "u" "update" [] 0 "ts" true).response
      = "❌ No similar leads found to update." ∧
    (getPendingConfirmation
        (salesHandleConfirmation (fun _ => "") (fun _ => "")
          (storePendingConfirmation [] "u" "sales" pendingSalesNoCand 0)
          "u" "update" [] 0 "ts" true).kv
        "u" "sales" 0).1
      = some { pendingSalesNoCand with timestamp := 0 } := by
  constructor
  · decide
  · decide

/-- C6 (amended): when an update_existing resolution hits a missing/empty
candidate list or an out-of-range 1-based index, both services return an
error-flavored message and leave the pending confirmation IN PLACE (the store
is returned unchanged, so the stale state persists until resolved otherwise
or expired) and the datastore untouched. -/
theorem C6_out_of_range_leaves_pending
    (kv : KV) (u : String) (pending : PendingConfirmation) (p : ProposedLead)
    (ti : Int) (db : List Lead) (ts : String) (w : Bool)
    (pf : PendingConfirmation) (pt : ProposedTx) (tdb : List Transaction)
    (now newId : Nat) (wf : Bool)
    (hp : pending.proposedLead = some p)
    (hpf : pf.proposedTransaction = some pt) :
    (pending.similarLeads = none ∨ pending.similarLeads = some [] →
      salesExecutePendingAction kv u .update_existing pending ti db ts w
        = ⟨"❌ No similar leads found to update.", kv, db⟩) ∧
    (∀ sims, pending.similarLeads = some sims → sims.isEmpty = false →
      jsIndex sims ti = none →
      salesExecutePendingAction kv u .update_existing pending ti db ts w
        = ⟨"❌ Could not find the lead to update. Please try again.", kv, db⟩) ∧
    (pf.similarTransactions = none ∨ pf.similarTransactions = some [] →
      financeExecutePendingAction kv u .update_existing pf ti tdb now newId wf
        = ⟨"❌ No similar transactions found to update.", kv, tdb⟩) ∧
    (∀ sims, pf.similarTransactions = some sims → sims.isEmpty = false →
      jsIndex sims ti = none →
      financeExecutePendingAction kv u .update_existing pf ti tdb now newId wf
        = ⟨"❌ Could not find the transaction to update. Please try again.", kv, tdb⟩) := by
  refine ⟨?_, ?_, ?_, ?_⟩
  · rintro (h | h) <;> simp [salesExecutePendingAction, hp, h]
  · intro sims hs hne hidx
    simp [salesExecutePendingAction, hp, hs, hne, hidx]
  · rintro (h | h) <;> simp [financeExecutePendingAction, hpf, h]
  · intro sims hs hne hidx
    simp [financeExecutePendingAction, hpf, hs, hne, hidx]

theorem C6_witness :
    salesExecutePendingAction [] "u" .update_existing pendingSalesNoCand 0 [] "ts" true
      = ⟨"❌ No similar leads found to update.", [], []⟩ ∧
    financeExecutePendingAction [] "u" .update_existing pendingFinWithCand 7 [] 0 1 true
      = ⟨"❌ Could not find the transaction to update. Please try again.", [], []⟩ := by
  constructor
  · exact (C6_out_of_range_leaves_pending [] "u" pendingSalesNoCand specimenProposedLead
      0 [] "ts" true pendingFinWithCand specimenProposedTx [] 0 1 true rfl rfl).1
      (Or.inr rfl)
  · exact (C6_out_of_range_leaves_pending [] "u" pendingSalesNoCand specimenProposedLead
      7 [] "ts" true pendingFinWithCand specimenProposedTx [] 0 1 true rfl rfl).2.2.2
      [specimenTx] rfl (by decide) (by decide)

/-- C7: a show_details reply (`show`/`details`/`info` with an optional 1-based
index, defaulting to the first candidate) returns the read-only detail view of
the chosen candidate annotated with the hint to reply "update" or "yes", and
neither clears nor modifies the stored pending confirmation — the store is
returned unchanged and a subsequent `get` still yields the same pending state;
this holds in both domains. -/
theorem C7_show_details_frame :
    (∀ (ra : Nat → String) (rf : String → String) (kv : KV) (u msg : String)
        (db : List Lead) (now : Nat) (ts : String) (w : Bool)
        (pending : PendingConfirmation) (sims : List Lead) (target full : Lead),
      kvLookup kv (confKey u "sales") now = some (.good pending) →
      (["yes", "y", "confirm", "create new", "new lead"].contains
          (lowerStr (jsTrim msg))) = false →
      ((["update", "use existing"].contains (lowerStr (jsTrim msg)))
          || digitRunPat (lowerStr (jsTrim msg))) = false →
      showPrefixPat (lowerStr (jsTrim msg)) = true →
      pending.similarLeads = some sims → sims.isEmpty = false →
      jsIndex sims (confTargetIndex (lowerStr (jsTrim msg))) = some target →
      db.find? (fun l => l.id == target.id) = some full →
      salesHandleConfirmation ra rf kv u msg db now ts w
        = ⟨formatViewResponse ra rf full ++
            "\n\n💭 *Reply with \x27update\x27 to merge with this lead, or \x27yes\x27 to create separately*",
           kv, db⟩ ∧
      (getPendingConfirmation kv u "sales" now).1 = some pending) ∧
    (∀ (rd : Nat → String) (kv : KV) (u msg : String) (db : List Transaction)
        (now newId : Nat) (w : Bool) (nr : String)
        (pending : PendingConfirmation) (sims : List Transaction) (target : Transaction),
      kvLookup kv (confKey u "finance") now = some (.good pending) →
      (["yes", "y", "confirm", "add new", "new transaction"].contains
          (lowerStr (jsTrim msg))) = false →
      ((["update", "use existing"].contains (lowerStr (jsTrim msg)))
          || updateNumPat (lowerStr (jsTrim msg))) = false →
      showPrefixPat (lowerStr (jsTrim msg)) = true →
      pending.similarTransactions = some sims → sims.isEmpty = false →
      jsIndex sims (confTargetIndex (lowerStr (jsTrim msg))) = some target →
      financeHandleConfirmation rd kv u msg db now newId w nr
        = ⟨"💰 **Transaction Details:**\n" ++
            "• Description: " ++ target.description ++ "\n" ++
            "• Amount: R" ++ toString target.amount ++ "\n" ++
            "• Category: " ++ target.category ++ "\n" ++
            "• Date: " ++ rd target.createdAt ++ "\n" ++
            (if jsTruthyStr target.babylonPrinciple then
              "• Babylon Principle: " ++ target.babylonPrinciple.getD "" ++ "\n" else "") ++
            "\n💭 *Reply with \x27update\x27 to merge with this transaction, or \x27yes\x27 to add separately*",
           kv, db⟩ ∧
      (getPendingConfirmation kv u "finance" now).1 = some pending) := by
  constructor
  · intro ra rf kv u msg db now ts w pending sims target full
    intro hlk hyes hupd hshow hsims hne hidx hdb
    simp at hyes hupd
    constructor
    · simp [salesHandleConfirmation, getPendingConfirmation, hlk, hyes, hupd, hshow,
        salesShowLeadDetails, hsims, hne, hidx, hdb]
    · simp [getPendingConfirmation, hlk]
  · intro rd kv u msg db now newId w nr pending sims target
    intro hlk hyes hupd hshow hsims hne hidx
    simp at hyes hupd
    constructor
    · simp [financeHandleConfirmation, getPendingConfirmation, hlk, hyes, hupd, hshow,
        financeShowTransactionDetails, hsims, hne, hidx]
    · simp [getPendingConfirmation, hlk]

theorem C7_witness :
    (salesHandleConfirmation (fun _ => "ago") (fun s => s)
        (storePendingConfirmation [] "u" "sales" pendingSalesWithCand 0)
        "u" "show 1" [specimenLead] 0 "ts" true
      = ⟨formatViewResponse (fun _ => "ago") (fun s => s) specimenLead ++
          "\n\n💭 *Reply with \x27update\x27 to merge with this lead, or \x27yes\x27 to create separately*",
         storePendingConfirmation [] "u" "sales" pendingSalesWithCand 0, [specimenLead]⟩ ∧
      (getPendingConfirmation (storePendingConfirmation [] "u" "sales" pendingSalesWithCand 0)
          "u" "sales" 0).1 = some { pendingSalesWithCand with timestamp := 0 }) ∧
    (financeHandleConfirmation (fun _ => "date")
        (storePendingConfirmation [] "u" "finance" pendingFinWithCand 0)
        "u" "show" [specimenTx] 0 5 true "normal"
      = ⟨"💰 **Transaction Details:**\n" ++
          "• Description: " ++ specimenTx.description ++ "\n" ++
          "• Amount: R" ++ toString specimenTx.amount ++ "\n" ++
          "• Category: " ++ specimenTx.category ++ "\n" ++
          "• Date: " ++ (fun (_ : Nat) => "date") specimenTx.createdAt ++ "\n" ++
          (if jsTruthyStr specimenTx.babylonPrinciple then
            "• Babylon Principle: " ++ specimenTx.babylonPrinciple.getD "" ++ "\n" else "") ++
          "\n💭 *Reply with \x27update\x27 to merge with this transaction, or \x27yes\x27 to add separately*",
         storePendingConfirmation [] "u" "finance" pendingFinWithCand 0, [specimenTx]⟩ ∧
      (getPendingConfirmation (storePendingConfirmation [] "u" "finance" pendingFinWithCand 0)
          "u" "finance" 0).1 = some { pendingFinWithCand with timestamp := 0 }) := by
  constructor
  · exact C7_show_details_frame.1 (fun _ => "ago") (fun s => s)
      (storePendingConfirmation [] "u" "sales" pendingSalesWithCand 0)
      "u" "show 1" [specimenLead] 0 "ts" true
      { pendingSalesWithCand with timestamp := 0 } [specimenLead] specimenLead specimenLead
      (by decide) (by decide) (by decide) (by decide) (by decide) (by decide)
      (by decide) (by decide)
  · exact C7_show_details_frame.2 (fun _ => "date")
      (storePendingConfirmation [] "u" "finance" pendingFinWithCand 0)
      "u" "show" [specimenTx] 0 5 true "normal"
      { pendingFinWithCand with timestamp := 0 } [specimenTx] specimenTx
      (by decide) (by decide) (by decide) (by decide) (by decide) (by decide)
      (by decide)

/-- C8: `getPendingConfirmation` returns the stored confirmation when a
well-formed one exists and nothing when the key is absent or expired; a
stored-but-unparsable payload is observationally identical to absence (the
call returns nothing, no parse error escapes) and the corrupt key is deleted
from the store. -/
theorem C8_get_self_heal (kv : KV) (u d : String) (now : Nat) :
    (kvLookup kv (confKey u d) now = none →
      getPendingConfirmation kv u d now = (none, kv)) ∧
    (∀ c, kvLookup kv (confKey u d) now = some (.good c) →
      getPendingConfirmation kv u d now = (some c, kv)) ∧
    (∀ raw, kvLookup kv (confKey u d) now = some (.corrupt raw) →
      (getPendingConfirmation kv u d now).1 = none ∧
      kvLookup (getPendingConfirmation kv u d now).2 (confKey u d) now = none) := by
  refine ⟨?_, ?_, ?_⟩
  · intro h
    simp [getPendingConfirmation, h]
  · intro c h
    simp [getPendingConfirmation, h]
  · intro raw h
    constructor
    · simp [getPendingConfirmation, h]
    · simp [getPendingConfirmation, h, kvLookup_kvDel]

theorem C8_witness :
    (getPendingConfirmation [(confKey "u" "sales", ⟨.corrupt "garbage", 99⟩)]
        "u" "sales" 0).1 = none ∧
    kvLookup
        (getPendingConfirmation [(confKey "u" "sales", ⟨.corrupt "garbage", 99⟩)]
          "u" "sales" 0).2
        (confKey "u" "sales") 0 = none ∧
    getPendingConfirmation [] "u" "sales" 0 = (none, []) := by
  have hc := (C8_get_self_heal [(confKey "u" "sales", ⟨.corrupt "garbage", 99⟩)]
    "u" "sales" 0).2.2 "garbage" (by decide)
  exact ⟨hc.1, hc.2, (C8_get_self_heal [] "u" "sales" 0).1 (by decide)⟩

theorem processAIRequest_ok {α : Type} (outcomes : Nat → Except String α) (v : α)
    (h : outcomes 1 = .ok v) : processAIRequest outcomes = ⟨.ok v, 1, []⟩ := by
  simp [processAIRequest, aiLoop, h]

theorem processAIRequest_err_first {α : Type} (outcomes : Nat → Except String α)
    (e : String) (h : outcomes 1 = .error e) (hr : isRetryableError e = false) :
    processAIRequest outcomes = ⟨.error e, 1, []⟩ := by
  simp [processAIRequest, aiLoop, h, hr]

theorem aiLoop_two {α : Type} (outcomes : Nat → Except String α) (s : List Nat) :
    aiLoop outcomes 2 s = ⟨outcomes 2, 2, s⟩ := by
  cases h : outcomes 2 with
  | ok v => simp [aiLoop, h]
  | error e => simp [aiLoop, h, maxRetries]

theorem processAIRequest_err_retry {α : Type} (outcomes : Nat → Except String α)
    (e : String) (h : outcomes 1 = .error e) (hr : isRetryableError e = true) :
    processAIRequest outcomes = ⟨outcomes 2, 2, [retryDelay * 1]⟩ := by
  have : processAIRequest outcomes = aiLoop outcomes 2 [retryDelay * 1] := by
    simp [processAIRequest, aiLoop, h, hr, maxRetries]
  rw [this, aiLoop_two]

/-- C9: `processAIRequest` makes at most 2 attempts; a first-attempt success
returns immediately with no sleeps; a first-attempt error outside the
transient class (message containing 429/502/503/overloaded/timeout/network/
unavailable) — which is where JSON-parse and schema-validation failures land —
propagates immediately with no retry; a transient first-attempt error is
retried exactly once after a linear backoff of `retryDelay * 1` ms, and the
second outcome (success or error) is final. -/
theorem C9_retry_policy {α : Type} (outcomes : Nat → Except String α) :
    (processAIRequest outcomes).attemptsMade ≤ maxRetries ∧
    (∀ v, outcomes 1 = .ok v → processAIRequest outcomes = ⟨.ok v, 1, []⟩) ∧
    (∀ e, outcomes 1 = .error e → isRetryableError e = false →
      processAIRequest outcomes = ⟨.error e, 1, []⟩) ∧
    (∀ e, outcomes 1 = .error e → isRetryableError e = true →
      processAIRequest outcomes = ⟨outcomes 2, 2, [retryDelay * 1]⟩) := by
  refine ⟨?_, fun v h => processAIRequest_ok outcomes v h,
    fun e h hr => processAIRequest_err_first outcomes e h hr,
    fun e h hr => processAIRequest_err_retry outcomes e h hr⟩
  cases h : outcomes 1 with
  | ok v => rw [processAIRequest_ok outcomes v h]; simp [maxRetries]
  | error e =>
    cases hr : isRetryableError e with
    | false => rw [processAIRequest_err_first outcomes e h hr]; simp [maxRetries]
    | true => rw [processAIRequest_err_retry outcomes e h hr]; simp [maxRetries]

theorem C9_witness :
    processAIRequest (fun n => if n = 1 then (Except.error "HTTP 503") else (.ok (42 : Nat)))
      = ⟨.ok 42, 2, [retryDelay * 1]⟩ ∧
    processAIRequest (fun _ => (Except.error "Unexpected token in JSON" : Except String Nat))
      = ⟨.error "Unexpected token in JSON", 1, []⟩ := by
  constructor
  · exact (C9_retry_policy _).2.2.2 "HTTP 503" rfl (by decide)
  · exact (C9_retry_policy _).2.2.1 "Unexpected token in JSON" rfl (by decide)

/-- C10 (implicit): when the datastore write of a create_new/add_new or
update_existing resolution throws, the catch handler returns the generic
failure string and CLEARS the pending confirmation, and the proposed entity
is not persisted (the database is returned unchanged) — so after a failed
resolution no pending confirmation remains and the user must restart the
duplicate flow; this holds in both the sales and finance resolution paths. -/
theorem C10_failed_resolution (kv : KV) (u : String) (pending : PendingConfirmation)
    (p : ProposedLead) (sims : List Lead) (ti : Int) (db : List Lead)
    (target existing : Lead) (ts : String)
    (pf : PendingConfirmation) (pt : ProposedTx) (fsims : List Transaction)
    (tdb : List Transaction) (ftarget : Transaction) (now newId : Nat) (fti : Int)
    (hp : pending.proposedLead = some p)
    (hs : pending.similarLeads = some sims)
    (hne : sims.isEmpty = false)
    (hidx : jsIndex sims ti = some target)
    (hdb : db.find? (fun l => l.id == target.id) = some existing)
    (hpf : pf.proposedTransaction = some pt)
    (hfs : pf.similarTransactions = some fsims)
    (hfne : fsims.isEmpty = false)
    (hfidx : jsIndex fsims fti = some ftarget) :
    salesExecutePendingAction kv u .update_existing pending ti db ts false
      = ⟨"❌ Something went wrong. Please try adding the lead again.",
         clearPendingConfirmation kv u "sales", db⟩ ∧
    financeExecutePendingAction kv u .add_new pf fti tdb now newId false
      = ⟨"❌ Something went wrong. Please try adding the transaction again.",
         clearPendingConfirmation kv u "finance", tdb⟩ ∧
    financeExecutePendingAction kv u .update_existing pf fti tdb now newId false
      = ⟨"❌ Something went wrong. Please try adding the transaction again.",
         clearPendingConfirmation kv u "finance", tdb⟩ ∧
    (∀ t, kvLookup (clearPendingConfirmation kv u "sales") (confKey u "sales") t = none) ∧
    (∀ t, kvLookup (clearPendingConfirmation kv u "finance") (confKey u "finance") t = none) := by
  refine ⟨?_, ?_, ?_, fun t => kvLookup_kvDel kv (confKey u "sales") t,
    fun t => kvLookup_kvDel kv (confKey u "finance") t⟩
  · simp [salesExecutePendingAction, hp, hs, hne, hidx, hdb]
  · simp [financeExecutePendingAction, hpf]
  · simp [financeExecutePendingAction, hpf, hfs, hfne, hfidx]

theorem C10_witness :
    salesExecutePendingAction [] "u" .update_existing pendingSalesWithCand 0
        [specimenLead] "ts" false
      = ⟨"❌ Something went wrong. Please try adding the lead again.",
         clearPendingConfirmation [] "u" "sales", [specimenLead]⟩ ∧
    financeExecutePendingAction [] "u" .add_new pendingFinWithCand 0
        [specimenTx] 3 9 false
      = ⟨"❌ Something went wrong. Please try adding the transaction again.",
         clearPendingConfirmation [] "u" "finance", [specimenTx]⟩ := by
  have h := C10_failed_resolution [] "u" pendingSalesWithCand specimenProposedLead
    [specimenLead] 0 [specimenLead] specimenLead specimenLead "ts"
    pendingFinWithCand specimenProposedTx [specimenTx] [specimenTx] specimenTx 3 9 0
    rfl rfl (by decide) (by decide) (by decide) rfl rfl (by decide) (by decide)
  exact ⟨h.1, h.2.1⟩

end Assist
